import Mathlib

/-!
Verification development for the Vega command assistant
(src/config.py, src/llm.py, src/main.py, src/spot.py, src/spotify_config.py).

The Python sources are shallowly embedded as executable Lean definitions.
External I/O (the Ollama text-generation HTTP call, the Spotify web API,
the interactive console, the settings file) is represented by explicit
environment/oracle values describing the observable responses of one invocation,
and the side effects a handler performs (service calls, user-visible prints,
file removal, clearing the cached client) are accumulated as an ordered
list of `Effect` values.
-/

namespace Vega

/-- A JSON value, as produced by Python `json.loads` / consumed by the code.
`obj` fields model a Python dict built by `json.loads` (for duplicate keys
the later entry wins, which `pyLookup` implements).  Numeric literals are
modelled as integers; no claim distinguishes floats. -/
inductive Json where
  | null
  | bool (b : Bool)
  | num (n : Int)
  | str (s : String)
  | arr (elems : List Json)
  | obj (fields : List (String × Json))

/-- Result of running a Python expression: either a value, or an uncaught
exception (identified by its Python class name) escaping the code under
consideration. -/
inductive PyResult (α : Type) where
  | ok (v : α)
  | exn (name : String)
deriving Repr

/-- Python dict lookup on the field list of a `Json.obj`: the last binding
of a key wins, matching `json.loads` duplicate-key behaviour. -/
def pyLookup {α : Type} (fields : List (String × α)) (k : String) : Option α :=
  fields.foldl (fun acc kv => if kv.1 == k then some kv.2 else acc) none

/-- `lo` is a character-list prelude of the other list (helper for the
Python substring test). -/
def listStartsWith : List Char → List Char → Bool
  | [], _ => true
  | _ :: _, [] => false
  | a :: as, b :: bs => a == b && listStartsWith as bs

/-- `needle` occurs as a contiguous run inside the character list. -/
def listSubstrOf (needle : List Char) : List Char → Bool
  | [] => listStartsWith needle []
  | b :: bs => listStartsWith needle (b :: bs) || listSubstrOf needle bs

/-- Python `needle in hay` for strings (substring containment). -/
def strContains (hay needle : String) : Bool :=
  listSubstrOf needle.toList hay.toList

/-- Python equality `s == j` between a `str` and an arbitrary decoded JSON
value: true exactly when the value is the same string. -/
def jsonEqStr (s : String) : Json → Bool
  | .str t => s == t
  | _ => false

/-- Python truthiness of a decoded JSON value (`if not x` tests). -/
def truthy : Json → Bool
  | .null => false
  | .bool b => b
  | .num n => n != 0
  | .str s => s != ""
  | .arr [] => false
  | .arr (_ :: _) => true
  | .obj [] => false
  | .obj (_ :: _) => true

/-- Python truthiness of `dict.get(k)`: a missing key yields `None`,
which is falsy. -/
def truthyOpt : Option Json → Bool
  | none => false
  | some j => truthy j

/-- Python membership `key in x` for a decoded JSON value `x`
(src/llm.py line 138 evaluates `"intent" not in parsed_json`):
for a dict it is key membership, for a list element equality against the
string, for a string the substring test, and for `None`/booleans/numbers
it raises `TypeError` (argument not iterable). -/
def pyContains (key : String) : Json → PyResult Bool
  | .obj fields => .ok (fields.any (fun kv => kv.1 == key))
  | .arr elems => .ok (elems.any (jsonEqStr key))
  | .str s => .ok (strContains s key)
  | .null => .exn "TypeError"
  | .bool _ => .exn "TypeError"
  | .num _ => .exn "TypeError"

/-! ## src/config.py -/

/-- src/config.py: `CMD_SPOTIFY = "spotify"`. -/
def CMD_SPOTIFY : String := "spotify"

/-- src/config.py: `CMD_NETFLIX = "netflix"`. -/
def CMD_NETFLIX : String := "netflix"

/-- src/config.py: `CMD_WEBSITE = "website"`. -/
def CMD_WEBSITE : String := "website"

/-- src/config.py: `CMD_UNKNOWN = "unknown"`. -/
def CMD_UNKNOWN : String := "unknown"

/-- src/config.py: `SUPPORTED_INTENTS = [CMD_SPOTIFY, CMD_NETFLIX, CMD_WEBSITE]`. -/
def SUPPORTED_INTENTS : List String := [CMD_SPOTIFY, CMD_NETFLIX, CMD_WEBSITE]

/-! ## src/llm.py — parse_command -/

/-- Observable outcome of the single `requests.post` call to the Ollama
generate endpoint in src/llm.py lines 126-141, as seen by `parse_command`:
* `requestFailure` — `requests.RequestException` raised by `post` or
  `raise_for_status` (connection refused, timeout, non-2xx status);
* `bodyNotJson` — a 2xx response whose body fails `response.json()`
  (the raised `requests.exceptions.JSONDecodeError` is a subclass of
  `json.JSONDecodeError`);
* `bodyJson api completion` — a 2xx response whose body decodes to the
  JSON value `api`; `completion` is the oracle for what `json.loads`
  yields on the stripped `response` text field (`none` when that text is
  not valid JSON).  JSON text parsing itself is external and is supplied
  by this oracle rather than re-implemented. -/
inductive ServiceOutcome where
  | requestFailure
  | bodyNotJson
  | bodyJson (api : Json) (completion : Option Json)

/-- src/llm.py lines 105-154, `parse_command(user_input)`: issues the
generation request and post-processes the answer.  The embedding follows
the source line by line:
* `except requests.RequestException` → `{"intent": CMD_UNKNOWN, "query": "Connection Error"}`;
* a 2xx body that fails `response.json()` raises a subclass of
  `json.JSONDecodeError`, so the first `except json.JSONDecodeError`
  clause catches it — but the logging f-string of that handler reads
  `llm_text_output`, which is not yet assigned on this path, so an
  `UnboundLocalError` is raised from inside the handler and escapes;
* `api_response.get("response", "")` raises `AttributeError` when the
  body decoded to a non-dict, and `.strip()` raises `AttributeError`
  when the `response` field is present but not a string;
* `json.loads` failure on the completion text → `{"intent": CMD_UNKNOWN, "query": user_input}`;
* `"intent" not in parsed_json` (see `pyContains`) → the same fallback
  when false, the decoded value returned as-is when true, and an escaping
  `TypeError` when the decoded value is `None`, a boolean or a number. -/
def parse_command (user_input : String) (outcome : ServiceOutcome) : PyResult Json :=
  match outcome with
  | .requestFailure =>
      .ok (Json.obj [("intent", Json.str CMD_UNKNOWN), ("query", Json.str "Connection Error")])
  | .bodyNotJson => .exn "UnboundLocalError"
  | .bodyJson api completion =>
      match api with
      | .obj fields =>
          match (pyLookup fields "response").getD (Json.str "") with
          | .str _ =>
              match completion with
              | none =>
                  .ok (Json.obj [("intent", Json.str CMD_UNKNOWN), ("query", Json.str user_input)])
              | some parsed_json =>
                  match pyContains "intent" parsed_json with
                  | .exn e => .exn e
                  | .ok true => .ok parsed_json
                  | .ok false =>
                      .ok (Json.obj [("intent", Json.str CMD_UNKNOWN), ("query", Json.str user_input)])
          | _ => .exn "AttributeError"
      | _ => .exn "AttributeError"

/-- An Ollama response body of the expected shape: a dict whose
`response` field, when present, is a string (src/llm.py line 135). -/
def wellFormedApiBody : Json → Bool
  | .obj fields =>
      match (pyLookup fields "response").getD (Json.str "") with
      | .str _ => true
      | _ => false
  | _ => false

/-! ## src/main.py — dispatcher and browser handlers -/

/-- The four action handlers of src/main.py (values of `COMMAND_HANDLERS`). -/
inductive Handler where
  | spotifyH
  | netflixH
  | websiteH
  | unknownH
deriving Repr, DecidableEq

/-- src/main.py lines 61-66: the dispatcher map
`COMMAND_HANDLERS = {CMD_SPOTIFY: handle_spotify_command, CMD_NETFLIX:
handle_netflix, CMD_WEBSITE: handle_website, CMD_UNKNOWN: handle_unknown}`. -/
def COMMAND_HANDLERS : List (String × Handler) :=
  [(CMD_SPOTIFY, Handler.spotifyH), (CMD_NETFLIX, Handler.netflixH),
   (CMD_WEBSITE, Handler.websiteH), (CMD_UNKNOWN, Handler.unknownH)]

/-- Python `COMMAND_HANDLERS.get(intent, handle_unknown)` where `intent`
is an arbitrary decoded JSON value: string keys are looked up (missing →
the `handle_unknown` default), hashable non-strings (`None`, booleans,
numbers) simply miss and give the default, and unhashable values (lists,
dicts) raise `TypeError`. -/
def dict_get_handler (intent : Json) : PyResult Handler :=
  match intent with
  | .str s => .ok ((pyLookup COMMAND_HANDLERS s).getD Handler.unknownH)
  | .arr _ => .exn "TypeError"
  | .obj _ => .exn "TypeError"
  | _ => .ok Handler.unknownH

/-- src/main.py lines 113-116 (inside `run_cli`): the per-command dispatch
`intent = command_data.get("intent", CMD_UNKNOWN);
handler = COMMAND_HANDLERS.get(intent, handle_unknown); handler(command_data)`.
Returns the selected handler together with the argument it is invoked
with (the command itself).  `.get` on a non-dict command raises
`AttributeError`. -/
def run_cli_dispatch (command_data : Json) : PyResult (Handler × Json) :=
  match command_data with
  | .obj fields =>
      match dict_get_handler ((pyLookup fields "intent").getD (Json.str CMD_UNKNOWN)) with
      | .ok h => .ok (h, Json.obj fields)
      | .exn e => .exn e
  | _ => .exn "AttributeError"

/-- Python `s.startswith(p)` (embedded over character lists so concrete
instances reduce in the kernel). -/
def pyStartsWith (s p : String) : Bool :=
  listStartsWith p.toList s.toList

/-- src/main.py lines 33-39, `handle_netflix`: the URL passed to
`webbrowser.open`.  The argument is the `query` field of the command
(`None` when absent, defaulted by `.get` to `"Netflix search"`); the
f-string interpolates the query verbatim into the fixed search endpoint. -/
def handle_netflix (query_field : Option String) : String :=
  let query := query_field.getD "Netflix search"
  "https://www.netflix.com/search?q=" ++ query

/-- src/main.py lines 42-50, `handle_website`: the URL passed to
`webbrowser.open`.  `query = command_data.get("query", "Website URL")`;
when the query starts with neither `http://` nor `https://` the code
prepends `https://`. -/
def handle_website (query_field : Option String) : String :=
  let query := query_field.getD "Website URL"
  let query :=
    if !(pyStartsWith query "http://" || pyStartsWith query "https://") then
      "https://" ++ query
    else query
  query

/-- Modelled from the spec: src/ contains no URL-encoding routine, and
§4.4 of the spec says the video-search handler operates "by URL-encoding
the query".  This is the spec-side definition of URL-encoding (RFC 3986
percent-encoding: unreserved characters kept, every other character —
here ASCII — replaced by a percent sign and two uppercase hex digits),
used only to compare the spec sentence against `handle_netflix`. -/
def spec_hexDigit (n : Nat) : Char :=
  if n < 10 then Char.ofNat (48 + n) else Char.ofNat (55 + n)

/-- Modelled from the spec: percent-encoding of one ASCII character
(see `spec_hexDigit`). -/
def spec_percentEncodeChar (c : Char) : List Char :=
  if c.isAlphanum || c == '-' || c == '_' || c == '.' || c == '~' then [c]
  else ['%', spec_hexDigit (c.toNat / 16 % 16), spec_hexDigit (c.toNat % 16)]

/-- Modelled from the spec: URL-encoding of an ASCII query string. -/
def spec_urlEncode (s : String) : String :=
  String.mk (s.toList.map spec_percentEncodeChar).flatten

/-! ## src/spotify_config.py -/

/-- src/spotify_config.py: `SPOTIPY_CACHE_PATH = ".spotify_cache"`. -/
def SPOTIPY_CACHE_PATH : String := ".spotify_cache"

/-- src/spotify_config.py: `SPOTIFY_ACTION_PLAY = "play"`. -/
def SPOTIFY_ACTION_PLAY : String := "play"

/-- src/spotify_config.py: `SPOTIFY_ACTION_QUEUE = "queue"`. -/
def SPOTIFY_ACTION_QUEUE : String := "queue"

/-- src/spotify_config.py: `SPOTIFY_ACTION_SKIP_NEXT = "skip_next"`. -/
def SPOTIFY_ACTION_SKIP_NEXT : String := "skip_next"

/-- src/spotify_config.py: `SPOTIFY_ACTION_SKIP_PREVIOUS = "skip_previous"`. -/
def SPOTIFY_ACTION_SKIP_PREVIOUS : String := "skip_previous"

/-- src/spotify_config.py: `SPOTIFY_ACTION_PAUSE = "pause"`. -/
def SPOTIFY_ACTION_PAUSE : String := "pause"

/-- src/spotify_config.py: `SPOTIFY_ACTION_RESUME = "resume"`. -/
def SPOTIFY_ACTION_RESUME : String := "resume"

/-! ## src/spot.py — the Spotify media handler

The external world of the handler is supplied as a `SpotifyEnv` describing the
observable responses of one invocation: the outcome of each spotipy web
API call, the scripted console inputs, and the settings file.  Process
state mutated by the handler — the global `sp` client and the on-disk
token cache — is a `GState` threaded explicitly.  Every externally
visible action (API call, user-visible print, `os.remove`, clearing `sp`,
`webbrowser.open`) is accumulated in order as an `Effect`. -/

/-- The global mutable state of src/spot.py: whether the module-level
`sp` client is set (not `None`), and whether the token cache file at
`SPOTIPY_CACHE_PATH` exists on disk. -/
structure GState where
  sp_some : Bool
  cache_exists : Bool
deriving Repr, DecidableEq

/-- One entry of the `devices()` response as consumed by the code:
`d["id"]`, `d["name"]`, `d["type"]`, `d["is_active"]`. -/
structure Device where
  id : String
  name : String
  type : String
  is_active : Bool
deriving Repr, DecidableEq

/-- One catalog item of the `search` response as consumed by the code:
`track["uri"]`, `track["name"]`, the name of the first entry of `track["artists"]`. -/
structure Track where
  uri : String
  name : String
  artist : String
deriving Repr, DecidableEq

/-- A spotipy client method invocation performed by the handler. -/
inductive SpotifyCall where
  | devices
  | transfer_playback (device_id : String) (force_play : Bool)
  | search (track_query : Json)
  | add_to_queue (uri : String) (device_id : String)
  | start_playback_uris (device_id : String) (uris : List String)
  | start_playback_resume (device_id : String)
  | current_playback
  | next_track (device_id : String)
  | previous_track (device_id : String)
  | pause_playback (device_id : String)

/-- An externally visible action of the handler, in program order. -/
inductive Effect where
  | call (c : SpotifyCall)
  | print (line : String)
  | removeFile (path : String)
  | clearGlobalSp
  | openBrowser (url : String)

/-- Outcome of one spotipy API call: a value, a raised
`spotipy.exceptions.SpotifyException` carrying `str(e) = msg`, or any
other raised exception. -/
inductive CallOutcome (α : Type) where
  | ok (v : α)
  | spotifyErr (msg : String)
  | otherErr

/-- The settings file `settings.json`: absent, present with invalid JSON
(`json.load` raises), or present decoding to a JSON value. -/
inductive SettingsFile where
  | absent
  | invalidJson
  | valid (j : Json)

/-- src/spot.py lines 38-43, `load_settings()`: reads `settings.json`
when it exists (propagating the `json.load` error on malformed content),
otherwise returns the default `{"default_play_behavior": "queue"}`. -/
def load_settings : SettingsFile → Except Unit Json
  | .absent => .ok (Json.obj [("default_play_behavior", Json.str "queue")])
  | .invalidJson => .error ()
  | .valid j => .ok j

/-- Python `j.get(k)` on a decoded JSON value: dict lookup, or
`AttributeError` when the value is not a dict. -/
def pyGet (j : Json) (k : String) : PyResult (Option Json) :=
  match j with
  | .obj fields => .ok (pyLookup fields k)
  | _ => .exn "AttributeError"

/-- Python `x == "queue"`-style comparison against an optional JSON value
(the result of `dict.get`, `None` when the key is missing). -/
def optJsonEqStr (s : String) : Option Json → Bool
  | some j => jsonEqStr s j
  | none => false

/-- The token-expiry test used by both `except` blocks of src/spot.py
(lines 146 and 263):
`"Invalid Access Token" in str(e) or "The access token expired" in str(e)`. -/
def is_token_error (msg : String) : Bool :=
  strContains msg "Invalid Access Token" || strContains msg "The access token expired"

/-- Python `s.lower()` (embedded over character lists). -/
def pyLower (s : String) : String :=
  String.mk (s.toList.map Char.toLower)

/-- Digit tail of Python `int(...)` string parsing, with single
underscores permitted between digits. -/
def pyDigitsAux (acc : Nat) : List Char → Option Nat
  | [] => some acc
  | ['_'] => none
  | '_' :: c :: cs =>
      if c.isDigit then pyDigitsAux (acc * 10 + (c.toNat - 48)) cs else none
  | c :: cs =>
      if c.isDigit then pyDigitsAux (acc * 10 + (c.toNat - 48)) cs else none

/-- Nonempty digit run of Python `int(...)` string parsing. -/
def pyDigits : List Char → Option Nat
  | [] => none
  | c :: cs => if c.isDigit then pyDigitsAux (c.toNat - 48) cs else none

/-- Python `int(choice)` on an already-stripped string: optional sign
followed by digits; `none` models the raised `ValueError`. -/
def parsePyInt (s : String) : Option Int :=
  match s.toList with
  | '-' :: rest => (pyDigits rest).map (fun n => -(n : Int))
  | '+' :: rest => (pyDigits rest).map (fun n => (n : Int))
  | l => (pyDigits l).map (fun n => (n : Int))

/-- The observable responses of the external world for one handler
invocation: the outcome of each spotipy call the code can make, the
scripted console inputs for the device-selection prompt, the settings
file, and whether the interactive authorization flow succeeds.
`currentPlayback`: `none` models a falsy `current_playback()` response,
`some b` a response whose `is_playing` field has truthiness `b`. -/
structure SpotifyEnv where
  devicesResult : CallOutcome (List Device)
  userInputs : List String
  transferResult : CallOutcome Unit
  searchResult : CallOutcome (List Track)
  settingsFile : SettingsFile
  currentPlayback : CallOutcome (Option Bool)
  addToQueueResult : CallOutcome Unit
  startPlaybackUrisResult : CallOutcome Unit
  startPlaybackResumeResult : CallOutcome Unit
  nextTrackResult : CallOutcome Unit
  previousTrackResult : CallOutcome Unit
  pausePlaybackResult : CallOutcome Unit
  authFlowOk : Bool

/-- Result of `get_spotify_client` as observed by its caller: whether a
client handle was obtained, the resulting global state, and the effects
performed. -/
structure ClientResult where
  ok : Bool
  st : GState
  effects : List Effect

/-- src/spot.py lines 58-103, `get_spotify_client()`: reuse the cached
`sp` client when set; otherwise, with a cached token on disk build a new
client from it (spotipy refreshes an expired cached token itself);
otherwise drive the interactive authorization flow — print the prompt,
open the authorize URL in the browser, read the pasted redirect URL —
whose success is `env.authFlowOk` (on success `get_access_token` writes
the cache file and the client is built). -/
def get_spotify_client_run (env : SpotifyEnv) (st : GState) : ClientResult :=
  if st.sp_some then ⟨true, st, []⟩
  else if st.cache_exists then ⟨true, { st with sp_some := true }, []⟩
  else
    let e0 : List Effect :=
      [.print "Spotify Auth: please open this URL in your browser to log in",
       .openBrowser "spotify_authorize_url"]
    if env.authFlowOk then ⟨true, { sp_some := true, cache_exists := true }, e0⟩
    else ⟨false, st, e0 ++ [.print "Spotify authentication failed."]⟩

/-- A raised exception inside the media handler, as classified by the
`except` clauses: a `SpotifyException` with its message, or any other
exception. -/
inductive RaisedErr where
  | spotify (msg : String)
  | generic

/-- Result of an internal helper (`_handle_spotify_play_queue`,
`_handle_spotify_skip`, `_handle_spotify_playback_control`): either a
normal return or a raised exception, with the effects performed before
returning/raising. -/
inductive HelperResult where
  | normal (effects : List Effect)
  | raised (e : RaisedErr) (effects : List Effect)

/-- Result of `get_active_device_id`: a returned value (device id or
`None`) with the new global state and effects, or an invocation stuck on
`input()` with no scripted input left. -/
inductive DeviceIdResult where
  | returned (device_id : Option String) (st : GState) (effects : List Effect)
  | blockedInput (st : GState) (effects : List Effect)

/-- src/spot.py lines 144-157: the `except` clauses of
`get_active_device_id`.  A `SpotifyException` whose message matches the
token-expiry test prints the error, removes the token cache file when it
exists, and clears the global `sp` client (forcing re-authentication on
the next invocation); other errors only print.  The function then
returns `None` (line 159). -/
def handle_device_check_error (err : RaisedErr) (st : GState) (acc : List Effect) :
    DeviceIdResult :=
  match err with
  | .generic =>
      .returned none st
        (acc ++ [.print "An unexpected error occurred while getting Spotify devices."])
  | .spotify msg =>
      if is_token_error msg then
        .returned none { sp_some := false, cache_exists := false }
          (acc ++
            [.print "Spotify Error: Access token expired. Please restart the app for re-authentication."] ++
            (if st.cache_exists then [.removeFile SPOTIPY_CACHE_PATH] else []) ++
            [.clearGlobalSp])
      else
        .returned none st
          (acc ++ [.print "An API error occurred while checking Spotify devices"])

/-- src/spot.py lines 122-139: the manual device-selection loop.  `s`
skips (returns `None`); a number in range selects that device, transfers
playback to it with `force_play=True` and returns its id (a raised
`SpotifyException` from the transfer is handled by the enclosing
`except`); anything else prints a complaint and loops.  Exhausting the
scripted inputs leaves the invocation blocked on `input()`. -/
def device_selection_loop (env : SpotifyEnv) (st : GState) (devs : List Device)
    (acc : List Effect) : List String → DeviceIdResult
  | [] => .blockedInput st acc
  | choice :: rest =>
      if pyLower choice == "s" then
        .returned none st
          (acc ++ [.print "Skipping Spotify action due to no device selection."])
      else
        match parsePyInt choice with
        | none =>
            device_selection_loop env st devs
              (acc ++ [.print "Invalid input. Please enter a number or s."]) rest
        | some i =>
            let device_index : Int := i - 1
            if 0 ≤ device_index ∧ device_index < (devs.length : Int) then
              let selected := devs.getD device_index.toNat ⟨"", "", "", false⟩
              let acc2 := acc ++ [.call (.transfer_playback selected.id true)]
              match env.transferResult with
              | .ok _ => .returned (some selected.id) st acc2
              | .spotifyErr m => handle_device_check_error (.spotify m) st acc2
              | .otherErr => handle_device_check_error .generic st acc2
            else
              device_selection_loop env st devs
                (acc ++ [.print "Invalid choice. Please enter a valid number."]) rest

/-- src/spot.py lines 105-159, `get_active_device_id(sp_client)`: list
the devices; return the id of the first active one; with devices but none
active, print the list and run the selection loop; with no devices,
print and return `None`.  `SpotifyException`/other errors are classified
by `handle_device_check_error`. -/
def get_active_device_id (env : SpotifyEnv) (st : GState) : DeviceIdResult :=
  let e0 : List Effect := [.call .devices]
  match env.devicesResult with
  | .spotifyErr msg => handle_device_check_error (.spotify msg) st e0
  | .otherErr => handle_device_check_error .generic st e0
  | .ok devs =>
      match devs.filter (fun d => d.is_active) with
      | a :: _ => .returned (some a.id) st e0
      | [] =>
          match devs with
          | [] =>
              .returned none st
                (e0 ++ [.print "No Spotify devices found. Please open Spotify on a device."])
          | _ :: _ =>
              device_selection_loop env st devs
                (e0 ++ [.print "No active Spotify device found. Available devices:"] ++
                  devs.map (fun d => Effect.print (d.name ++ " (" ++ d.type ++ ")")))
                env.userInputs

/-- src/spot.py lines 161-197, `_handle_spotify_play_queue(sp_client,
device_id, action, track_query)`: search the catalog (limit 1); with no
match print and return; with a match, for an explicit `play` action read
`load_settings()` and downgrade the final action to `queue` when
`default_play_behavior` equals `"queue"` (printing the reinterpretation
note), else keep direct play (printing that note); then `queue` →
`add_to_queue`, `play` → `start_playback(device_id, uris=[track_uri])`;
after a queue action, check `current_playback()` and, when nothing is
playing, `start_playback(device_id)` (no uris).  Exceptions raised by
any of these calls (or by `load_settings`/`settings.get`) propagate. -/
def _handle_spotify_play_queue (env : SpotifyEnv) (device_id : String)
    (action track_query : Json) : HelperResult :=
  let e0 : List Effect := [.call (.search track_query)]
  match env.searchResult with
  | .spotifyErr m => .raised (.spotify m) e0
  | .otherErr => .raised .generic e0
  | .ok [] => .normal (e0 ++ [.print "No Spotify track found"])
  | .ok (track :: _) =>
      let settingsStep : Except RaisedErr (Json × List Effect) :=
        if jsonEqStr SPOTIFY_ACTION_PLAY action then
          match load_settings env.settingsFile with
          | .error _ => .error .generic
          | .ok settings =>
              match pyGet settings "default_play_behavior" with
              | .exn _ => .error .generic
              | .ok v =>
                  if optJsonEqStr "queue" v then
                    .ok (Json.str SPOTIFY_ACTION_QUEUE,
                      [.print "Setting: Play command interpreted as Add to Queue."])
                  else
                    .ok (action, [.print "Setting: Play command interpreted as Play Directly."])
        else .ok (action, [])
      match settingsStep with
      | .error e => .raised e e0
      | .ok (final_action, noteEffs) =>
          let e1 := e0 ++ noteEffs
          if jsonEqStr SPOTIFY_ACTION_QUEUE final_action then
            let eq1 := e1 ++ [.call (.add_to_queue track.uri device_id)]
            match env.addToQueueResult with
            | .spotifyErr m => .raised (.spotify m) eq1
            | .otherErr => .raised .generic eq1
            | .ok _ =>
                let e2 := eq1 ++
                  [.print ("Action: Added " ++ track.name ++ " by " ++ track.artist ++ " to queue")] ++
                  [.call .current_playback]
                match env.currentPlayback with
                | .spotifyErr m => .raised (.spotify m) e2
                | .otherErr => .raised .generic e2
                | .ok (some true) =>
                    .normal (e2 ++ [.print "Note: Music is already playing. Track added to queue."])
                | .ok _ =>
                    let e3 := e2 ++ [.print "Note: Music was paused, starting playback now.",
                      .call (.start_playback_resume device_id)]
                    match env.startPlaybackResumeResult with
                    | .spotifyErr m => .raised (.spotify m) e3
                    | .otherErr => .raised .generic e3
                    | .ok _ => .normal e3
          else if jsonEqStr SPOTIFY_ACTION_PLAY final_action then
            let ep1 := e1 ++ [.call (.start_playback_uris device_id [track.uri])]
            match env.startPlaybackUrisResult with
            | .spotifyErr m => .raised (.spotify m) ep1
            | .otherErr => .raised .generic ep1
            | .ok _ =>
                .normal (ep1 ++
                  [.print ("Action: Now playing " ++ track.name ++ " by " ++ track.artist)])
          else .normal e1

/-- src/spot.py lines 199-206, `_handle_spotify_skip`. -/
def _handle_spotify_skip (env : SpotifyEnv) (device_id : String) (action : Json) :
    HelperResult :=
  if jsonEqStr SPOTIFY_ACTION_SKIP_NEXT action then
    match env.nextTrackResult with
    | .spotifyErr m => .raised (.spotify m) [.call (.next_track device_id)]
    | .otherErr => .raised .generic [.call (.next_track device_id)]
    | .ok _ => .normal [.call (.next_track device_id), .print "Action: Skipped to next track"]
  else if jsonEqStr SPOTIFY_ACTION_SKIP_PREVIOUS action then
    match env.previousTrackResult with
    | .spotifyErr m => .raised (.spotify m) [.call (.previous_track device_id)]
    | .otherErr => .raised .generic [.call (.previous_track device_id)]
    | .ok _ => .normal [.call (.previous_track device_id), .print "Action: Skipped to previous track"]
  else .normal []

/-- src/spot.py lines 208-215, `_handle_spotify_playback_control`. -/
def _handle_spotify_playback_control (env : SpotifyEnv) (device_id : String)
    (action : Json) : HelperResult :=
  if jsonEqStr SPOTIFY_ACTION_PAUSE action then
    match env.pausePlaybackResult with
    | .spotifyErr m => .raised (.spotify m) [.call (.pause_playback device_id)]
    | .otherErr => .raised .generic [.call (.pause_playback device_id)]
    | .ok _ => .normal [.call (.pause_playback device_id), .print "Action: Playback paused."]
  else if jsonEqStr SPOTIFY_ACTION_RESUME action then
    match env.startPlaybackResumeResult with
    | .spotifyErr m => .raised (.spotify m) [.call (.start_playback_resume device_id)]
    | .otherErr => .raised .generic [.call (.start_playback_resume device_id)]
    | .ok _ => .normal [.call (.start_playback_resume device_id), .print "Action: Playback resumed."]
  else .normal []

/-- Outcome of `handle_spotify_command`: a normal return, an exception
escaping the handler (to the generic catch of the main loop), or an
invocation stuck on `input()`. -/
inductive HandlerOutcome where
  | done (st : GState) (effects : List Effect)
  | pyError (e : String) (st : GState) (effects : List Effect)
  | blockedInput (st : GState) (effects : List Effect)

/-- src/spot.py lines 259-275: the `except` clauses around the action
branch of `handle_spotify_command`.  "No active device found" → advisory
print; token expired/invalid → print, remove the cache file when it
exists, clear the global `sp` client; "Restriction violated" → advisory
print; any other `SpotifyException` or any other exception → generic
print.  The handler then returns. -/
def run_helper_result (st : GState) (base : List Effect) : HelperResult → HandlerOutcome
  | .normal effs => .done st (base ++ effs)
  | .raised .generic effs =>
      .done st (base ++ effs ++ [.print "An unexpected error occurred with Spotify."])
  | .raised (.spotify msg) effs =>
      let b := base ++ effs
      if strContains msg "No active device found" then
        .done st (b ++ [.print "Spotify Error: No active playback device found. Please start Spotify on a device first."])
      else if is_token_error msg then
        .done { sp_some := false, cache_exists := false }
          (b ++ [.print "Spotify Error: Access token expired. Attempting to re-authenticate on next command."] ++
            (if st.cache_exists then [.removeFile SPOTIPY_CACHE_PATH] else []) ++
            [.clearGlobalSp])
      else if strContains msg "Restriction violated" then
        .done st (b ++ [.print "Spotify Error: Restriction violated. Ensure the Spotify app is open on the device."])
      else .done st (b ++ [.print "Spotify API error"])

/-- src/spot.py lines 217-275, `handle_spotify_command(command_data)`:
validate `spotify_command` presence and truthiness, extract `action` and
`track_query`, validate `action` truthiness, acquire the client, resolve
a device — `if not device_id:` (line 242) stops with the no-suitable-
device print both when resolution returned `None` and when it returned a
falsy (empty) device id string — then branch on the action (play/queue
require a truthy `track_query`), delegating to the internal helpers;
raised exceptions
from the action branch are classified by `run_helper_result`.  `.get` on
a non-dict command or non-dict `spotify_command` raises `AttributeError`
past the handler. -/
def handle_spotify_command (command_data : Json) (env : SpotifyEnv) (st : GState) :
    HandlerOutcome :=
  let e0 : List Effect := [.print "SPOTIFY"]
  match command_data with
  | .obj fields =>
      match pyLookup fields "spotify_command" with
      | none =>
          .done st (e0 ++ [.print "Error: Missing spotify_command details for Spotify intent."])
      | some d =>
          if !truthy d then
            .done st (e0 ++ [.print "Error: Missing spotify_command details for Spotify intent."])
          else
            match d with
            | .obj dfields =>
                let track_query := pyLookup dfields "track_query"
                match pyLookup dfields "action" with
                | none => .done st (e0 ++ [.print "Error: Spotify command missing action field."])
                | some actionJ =>
                    if !truthy actionJ then
                      .done st (e0 ++ [.print "Error: Spotify command missing action field."])
                    else
                      let c := get_spotify_client_run env st
                      if !c.ok then
                        .done c.st (e0 ++ c.effects ++
                          [.print "Spotify not connected. Cannot fulfill request."])
                      else
                        match get_active_device_id env c.st with
                        | .blockedInput st2 de => .blockedInput st2 (e0 ++ c.effects ++ de)
                        | .returned none st2 de =>
                            .done st2 (e0 ++ c.effects ++ de ++
                              [.print "No suitable Spotify device found or selected."])
                        | .returned (some device_id) st2 de =>
                            if device_id == "" then
                              .done st2 (e0 ++ c.effects ++ de ++
                                [.print "No suitable Spotify device found or selected."])
                            else
                            let base := e0 ++ c.effects ++ de
                            if jsonEqStr SPOTIFY_ACTION_PLAY actionJ ||
                                jsonEqStr SPOTIFY_ACTION_QUEUE actionJ then
                              if !truthyOpt track_query then
                                .done st2 (base ++ [.print "Error: this command requires a track_query."])
                              else
                                run_helper_result st2 base
                                  (_handle_spotify_play_queue env device_id actionJ
                                    (track_query.getD Json.null))
                            else if jsonEqStr SPOTIFY_ACTION_SKIP_NEXT actionJ ||
                                jsonEqStr SPOTIFY_ACTION_SKIP_PREVIOUS actionJ then
                              run_helper_result st2 base (_handle_spotify_skip env device_id actionJ)
                            else if jsonEqStr SPOTIFY_ACTION_PAUSE actionJ ||
                                jsonEqStr SPOTIFY_ACTION_RESUME actionJ then
                              run_helper_result st2 base
                                (_handle_spotify_playback_control env device_id actionJ)
                            else
                              .done st2 (base ++ [.print "Unknown Spotify action"])
            | _ => .pyError "AttributeError" st e0
  | _ => .pyError "AttributeError" st e0

/-- The effects performed by a helper, whether it returned or raised. -/
def helperEffects : HelperResult → List Effect
  | .normal effs => effs
  | .raised _ effs => effs

/-- The value of `load_settings().get("default_play_behavior")` when
that evaluation raises nothing: `some v` with the looked-up value, or
`none` when `load_settings` or `.get` raises. -/
def settings_read (sf : SettingsFile) : Option (Option Json) :=
  match load_settings sf with
  | .error _ => none
  | .ok s =>
      match pyGet s "default_play_behavior" with
      | .exn _ => none
      | .ok v => some v

/-- Helper: with a matched track and a readable `default_play_behavior`
equal to `"queue"`, the play action is executed as add-to-queue: the
queue call and the reinterpretation note are among the effects and no
`start_playback(uris=[...])` call is. -/
theorem play_queue_effects_downgraded (env : SpotifyEnv) (device_id : String) (tq : Json)
    (t : Track) (rest : List Track) (v : Option Json)
    (hsearch : env.searchResult = .ok (t :: rest))
    (hread : settings_read env.settingsFile = some v)
    (hq : optJsonEqStr "queue" v = true) :
    Effect.call (.add_to_queue t.uri device_id) ∈
        helperEffects (_handle_spotify_play_queue env device_id
          (Json.str SPOTIFY_ACTION_PLAY) tq) ∧
    Effect.print "Setting: Play command interpreted as Add to Queue." ∈
        helperEffects (_handle_spotify_play_queue env device_id
          (Json.str SPOTIFY_ACTION_PLAY) tq) ∧
    ∀ d us, Effect.call (.start_playback_uris d us) ∉
        helperEffects (_handle_spotify_play_queue env device_id
          (Json.str SPOTIFY_ACTION_PLAY) tq) := by
  unfold settings_read at hread
  cases hls : load_settings env.settingsFile <;> simp only [hls] at hread
  case error e => simp at hread
  case ok s =>
    cases hg : pyGet s "default_play_behavior" <;> simp only [hg] at hread
    case exn e => simp at hread
    case ok v2 =>
      have hv : v2 = v := by simpa using hread
      subst hv
      simp only [_handle_spotify_play_queue, hsearch, hls, hg, hq,
        jsonEqStr, SPOTIFY_ACTION_PLAY, SPOTIFY_ACTION_QUEUE]
      simp only [beq_self_eq_true, if_true, ite_true]
      cases ha : env.addToQueueResult with
      | spotifyErr m => simp [ha, helperEffects]
      | otherErr => simp [ha, helperEffects]
      | ok u =>
        cases hc : env.currentPlayback with
        | spotifyErr m => simp [ha, hc, helperEffects]
        | otherErr => simp [ha, hc, helperEffects]
        | ok cp =>
          match cp with
          | none =>
            cases hr : env.startPlaybackResumeResult <;>
              simp [ha, hc, hr, helperEffects]
          | some false =>
            cases hr : env.startPlaybackResumeResult <;>
              simp [ha, hc, hr, helperEffects]
          | some true => simp [ha, hc, helperEffects]

/-- Helper: with a matched track and a readable `default_play_behavior`
different from `"queue"`, the play action is executed directly:
`start_playback(device_id, uris=[track_uri])` is among the effects. -/
theorem play_queue_effects_direct (env : SpotifyEnv) (device_id : String) (tq : Json)
    (t : Track) (rest : List Track) (v : Option Json)
    (hsearch : env.searchResult = .ok (t :: rest))
    (hread : settings_read env.settingsFile = some v)
    (hq : optJsonEqStr "queue" v = false) :
    Effect.call (.start_playback_uris device_id [t.uri]) ∈
        helperEffects (_handle_spotify_play_queue env device_id
          (Json.str SPOTIFY_ACTION_PLAY) tq) := by
  unfold settings_read at hread
  cases hls : load_settings env.settingsFile <;> simp only [hls] at hread
  case error e => simp at hread
  case ok s =>
    cases hg : pyGet s "default_play_behavior" <;> simp only [hg] at hread
    case exn e => simp at hread
    case ok v2 =>
      have hv : v2 = v := by simpa using hread
      subst hv
      simp only [_handle_spotify_play_queue, hsearch, hls, hg, hq,
        jsonEqStr, SPOTIFY_ACTION_PLAY, SPOTIFY_ACTION_QUEUE]
      simp only [beq_self_eq_true, if_true, ite_true, Bool.false_eq_true, if_false]
      rcases hp : env.startPlaybackUrisResult with _ | m | _ <;>
        simp [hp, helperEffects]

/-- C1: the claim says `parse_command` is total at its boundary — for
every utterance it returns a Command dictionary and never raises past its
own boundary.  The code violates this, contradicting its own docstring
("Returns: dict ..."): on a successful service response whose completion
text is `"42"` (valid JSON, decoding to the number 42),
`"intent" not in parsed_json` raises `TypeError` (an `int` is not
iterable), which no `except` clause catches.  This theorem evaluates the
embedded code at that failing input. -/
theorem claim_C1_typeerror_escapes :
    parse_command "hi"
        (.bodyJson (Json.obj [("response", Json.str "42")]) (some (Json.num 42))) =
      .exn "TypeError" := rfl

/-- C2: the failure mapping of `parse_command` is exact — transport
failure yields `{"intent": "unknown", "query": "Connection Error"}`,
while a completion that is not valid JSON, or decoded JSON on which the
`intent` membership test is false, yields
`{"intent": "unknown", "query": <original utterance>}`. -/
theorem claim_C2_failure_mapping (user_input : String) :
    parse_command user_input .requestFailure =
      .ok (Json.obj [("intent", Json.str CMD_UNKNOWN), ("query", Json.str "Connection Error")]) ∧
    (∀ api : Json, wellFormedApiBody api = true →
      parse_command user_input (.bodyJson api none) =
        .ok (Json.obj [("intent", Json.str CMD_UNKNOWN), ("query", Json.str user_input)])) ∧
    (∀ api j : Json, wellFormedApiBody api = true →
      pyContains "intent" j = .ok false →
      parse_command user_input (.bodyJson api (some j)) =
        .ok (Json.obj [("intent", Json.str CMD_UNKNOWN), ("query", Json.str user_input)])) := by
  refine ⟨rfl, ?_, ?_⟩
  · intro api h
    match api with
    | .null | .bool _ | .num _ | .str _ | .arr _ => simp [wellFormedApiBody] at h
    | .obj fields =>
      cases hr : (pyLookup fields "response").getD (Json.str "") <;>
        simp [wellFormedApiBody, hr] at h <;> simp [parse_command, hr]
  · intro api j h hc
    match api with
    | .null | .bool _ | .num _ | .str _ | .arr _ => simp [wellFormedApiBody] at h
    | .obj fields =>
      cases hr : (pyLookup fields "response").getD (Json.str "") <;>
        simp [wellFormedApiBody, hr] at h <;> simp [parse_command, hr, hc]

/-- Witness for C2 at concrete inputs. -/
theorem claim_C2_failure_mapping_witness :
    parse_command "hello" .requestFailure =
      .ok (Json.obj [("intent", Json.str CMD_UNKNOWN), ("query", Json.str "Connection Error")]) ∧
    parse_command "hello" (.bodyJson (Json.obj [("response", Json.str "not json")]) none) =
      .ok (Json.obj [("intent", Json.str CMD_UNKNOWN), ("query", Json.str "hello")]) ∧
    parse_command "hello"
        (.bodyJson (Json.obj [("response", Json.str "x")]) (some (Json.obj [("foo", Json.null)]))) =
      .ok (Json.obj [("intent", Json.str CMD_UNKNOWN), ("query", Json.str "hello")]) :=
  ⟨(claim_C2_failure_mapping "hello").1,
   (claim_C2_failure_mapping "hello").2.1 (Json.obj [("response", Json.str "not json")]) rfl,
   (claim_C2_failure_mapping "hello").2.2 (Json.obj [("response", Json.str "x")])
     (Json.obj [("foo", Json.null)]) rfl rfl⟩

/-- C3 counterexample: the claim says the intent of the returned Command is
always one of the four enum values, but `parse_command` performs no such
validation — a decoded completion `{"intent": "foobar"}` is returned
as-is, with an intent outside the enum. -/
theorem claim_C3_counterexample :
    parse_command "hi"
        (.bodyJson (Json.obj [("response", Json.str "x")])
          (some (Json.obj [("intent", Json.str "foobar")]))) =
      .ok (Json.obj [("intent", Json.str "foobar")]) ∧
    ¬ ("foobar" ∈ SUPPORTED_INTENTS ++ [CMD_UNKNOWN]) :=
  ⟨rfl, by decide⟩

/-- C3 amended: whenever `parse_command` returns a value, that value is
either one of the two fallback dictionaries (whose intent is the enum
value `"unknown"`), or the decoded completion returned as-is — on which
the `intent` membership test succeeded but whose intent value is not
validated against the enum. -/
theorem claim_C3_amended (user_input : String) (outcome : ServiceOutcome) (r : Json) :
    parse_command user_input outcome = .ok r →
    r = Json.obj [("intent", Json.str CMD_UNKNOWN), ("query", Json.str "Connection Error")] ∨
      r = Json.obj [("intent", Json.str CMD_UNKNOWN), ("query", Json.str user_input)] ∨
      (∃ api, outcome = .bodyJson api (some r) ∧ pyContains "intent" r = .ok true) := by
  intro h
  match outcome with
  | .requestFailure =>
    left
    have := h
    simp [parse_command] at this
    exact this.symm
  | .bodyNotJson =>
    simp [parse_command] at h
  | .bodyJson api completion =>
    match api, completion with
    | .null, _ | .bool _, _ | .num _, _ | .str _, _ | .arr _, _ =>
      simp [parse_command] at h
    | .obj fields, none =>
      cases hr : (pyLookup fields "response").getD (Json.str "") <;>
        simp [parse_command, hr] at h
      right; left
      exact h.symm
    | .obj fields, some j =>
      cases hr : (pyLookup fields "response").getD (Json.str "") <;>
        simp [parse_command, hr] at h
      cases hc : pyContains "intent" j <;> simp [hc] at h
      case ok b =>
        cases b <;> simp at h
        · right; left
          exact h.symm
        · right; right
          subst h
          exact ⟨Json.obj fields, rfl, hc⟩

/-- Witness for C3 amended at a concrete input (transport failure). -/
theorem claim_C3_amended_witness :
    Json.obj [("intent", Json.str CMD_UNKNOWN), ("query", Json.str "Connection Error")] =
        Json.obj [("intent", Json.str CMD_UNKNOWN), ("query", Json.str "Connection Error")] ∨
      Json.obj [("intent", Json.str CMD_UNKNOWN), ("query", Json.str "Connection Error")] =
        Json.obj [("intent", Json.str CMD_UNKNOWN), ("query", Json.str "u")] ∨
      (∃ api, ServiceOutcome.requestFailure =
          ServiceOutcome.bodyJson api
            (some (Json.obj [("intent", Json.str CMD_UNKNOWN), ("query", Json.str "Connection Error")])) ∧
        pyContains "intent"
            (Json.obj [("intent", Json.str CMD_UNKNOWN), ("query", Json.str "Connection Error")]) =
          .ok true) :=
  claim_C3_amended "u" ServiceOutcome.requestFailure
    (Json.obj [("intent", Json.str CMD_UNKNOWN), ("query", Json.str "Connection Error")]) rfl

/-! ## Claim C4 — the dispatcher -/

/-- C4: dispatch is a pure lookup — a command whose intent is one of the
four declared strings is routed to the matching handler, invoked with
that same command; any other intent string, and a missing intent field,
route to the unknown-fallback handler (invoked with the command). -/
theorem claim_C4_dispatch :
    (∀ fields, pyLookup fields "intent" = some (Json.str CMD_SPOTIFY) →
      run_cli_dispatch (Json.obj fields) = .ok (Handler.spotifyH, Json.obj fields)) ∧
    (∀ fields, pyLookup fields "intent" = some (Json.str CMD_NETFLIX) →
      run_cli_dispatch (Json.obj fields) = .ok (Handler.netflixH, Json.obj fields)) ∧
    (∀ fields, pyLookup fields "intent" = some (Json.str CMD_WEBSITE) →
      run_cli_dispatch (Json.obj fields) = .ok (Handler.websiteH, Json.obj fields)) ∧
    (∀ fields, pyLookup fields "intent" = some (Json.str CMD_UNKNOWN) →
      run_cli_dispatch (Json.obj fields) = .ok (Handler.unknownH, Json.obj fields)) ∧
    (∀ fields s, pyLookup fields "intent" = some (Json.str s) →
      s ∉ [CMD_SPOTIFY, CMD_NETFLIX, CMD_WEBSITE, CMD_UNKNOWN] →
      run_cli_dispatch (Json.obj fields) = .ok (Handler.unknownH, Json.obj fields)) ∧
    (∀ fields, pyLookup fields "intent" = none →
      run_cli_dispatch (Json.obj fields) = .ok (Handler.unknownH, Json.obj fields)) := by
  refine ⟨?_, ?_, ?_, ?_, ?_, ?_⟩
  · intro fields hl
    simp only [run_cli_dispatch, hl]
    rfl
  · intro fields hl
    simp only [run_cli_dispatch, hl]
    rfl
  · intro fields hl
    simp only [run_cli_dispatch, hl]
    rfl
  · intro fields hl
    simp only [run_cli_dispatch, hl]
    rfl
  · intro fields s hl hs
    simp [List.mem_cons, not_or, CMD_SPOTIFY, CMD_NETFLIX, CMD_WEBSITE, CMD_UNKNOWN] at hs
    obtain ⟨h1, h2, h3, h4⟩ := hs
    simp only [run_cli_dispatch, hl]
    simp [dict_get_handler, COMMAND_HANDLERS, pyLookup,
      CMD_SPOTIFY, CMD_NETFLIX, CMD_WEBSITE, CMD_UNKNOWN,
      Ne.symm h1, Ne.symm h2, Ne.symm h3, Ne.symm h4]
  · intro fields hl
    simp only [run_cli_dispatch, hl]
    rfl

/-- Witness for C4 at concrete commands: a declared intent and an
undeclared intent string. -/
theorem claim_C4_dispatch_witness :
    run_cli_dispatch (Json.obj [("intent", Json.str "spotify")]) =
      .ok (Handler.spotifyH, Json.obj [("intent", Json.str "spotify")]) ∧
    run_cli_dispatch (Json.obj [("intent", Json.str "weird")]) =
      .ok (Handler.unknownH, Json.obj [("intent", Json.str "weird")]) :=
  ⟨claim_C4_dispatch.1 [("intent", Json.str "spotify")] rfl,
   claim_C4_dispatch.2.2.2.2.1 [("intent", Json.str "weird")] "weird" rfl (by decide)⟩

/-! ## Claims C8, C9 — browser handlers -/

/-- C8 counterexample: the claim says the video-search handler URL-encodes
the query, but `handle_netflix` interpolates it verbatim: for the query
with a space the opened URL contains the raw space and does not contain
the URL-encoded term, and it differs from the URL built with encoding. -/
theorem claim_C8_counterexample :
    handle_netflix (some "stranger things") =
        "https://www.netflix.com/search?q=stranger things" ∧
    spec_urlEncode "stranger things" = "stranger%20things" ∧
    strContains (handle_netflix (some "stranger things"))
        (spec_urlEncode "stranger things") = false ∧
    handle_netflix (some "stranger things") ≠
      "https://www.netflix.com/search?q=" ++ spec_urlEncode "stranger things" := by
  refine ⟨rfl, by decide, by decide, by decide⟩

/-- C8 amended: the video-search handler builds the URL by appending the
query verbatim (no URL-encoding) to the fixed search endpoint
`https://www.netflix.com/search?q=` and opens that URL; a missing query
defaults to the placeholder `Netflix search`. -/
theorem claim_C8_amended (q : String) :
    handle_netflix (some q) = "https://www.netflix.com/search?q=" ++ q ∧
    handle_netflix none = "https://www.netflix.com/search?q=Netflix search" :=
  ⟨rfl, rfl⟩

/-- C9: the website handler opens the query unchanged when it starts with
`http://` or `https://`, and opens `https://` prepended to the query
otherwise. -/
theorem claim_C9_website_url (q : String) :
    ((pyStartsWith q "http://" = true ∨ pyStartsWith q "https://" = true) →
      handle_website (some q) = q) ∧
    (pyStartsWith q "http://" = false → pyStartsWith q "https://" = false →
      handle_website (some q) = "https://" ++ q) := by
  constructor
  · intro h
    rcases h with h | h <;> simp [handle_website, h]
  · intro h1 h2
    simp [handle_website, h1, h2]

/-- Witness for C9 at the two example inputs given by the spec. -/
theorem claim_C9_website_url_witness :
    handle_website (some "https://example.com") = "https://example.com" ∧
    handle_website (some "example.com") = "https://example.com" :=
  ⟨(claim_C9_website_url "https://example.com").1 (Or.inr (by decide)),
   (claim_C9_website_url "example.com").2 (by decide) (by decide)⟩

/-! ## Claims C5, C10 — play-behaviour downgrade -/

/-- C5: for a media `play` command with a matched track, when the
external default-play-behavior setting reads `"queue"` the effective
action is downgraded — `add_to_queue` is invoked (never
`start_playback` with the track) and the reinterpretation note is
printed; when the setting reads something else, `start_playback` is
invoked with the matched track. -/
theorem claim_C5_play_behavior (env : SpotifyEnv) (device_id : String) (tq : Json)
    (t : Track) (rest : List Track) (v : Option Json)
    (hsearch : env.searchResult = .ok (t :: rest))
    (hread : settings_read env.settingsFile = some v) :
    (optJsonEqStr "queue" v = true →
      Effect.call (.add_to_queue t.uri device_id) ∈
          helperEffects (_handle_spotify_play_queue env device_id
            (Json.str SPOTIFY_ACTION_PLAY) tq) ∧
      Effect.print "Setting: Play command interpreted as Add to Queue." ∈
          helperEffects (_handle_spotify_play_queue env device_id
            (Json.str SPOTIFY_ACTION_PLAY) tq) ∧
      ∀ d us, Effect.call (.start_playback_uris d us) ∉
          helperEffects (_handle_spotify_play_queue env device_id
            (Json.str SPOTIFY_ACTION_PLAY) tq)) ∧
    (optJsonEqStr "queue" v = false →
      Effect.call (.start_playback_uris device_id [t.uri]) ∈
          helperEffects (_handle_spotify_play_queue env device_id
            (Json.str SPOTIFY_ACTION_PLAY) tq)) :=
  ⟨fun hq => play_queue_effects_downgraded env device_id tq t rest v hsearch hread hq,
   fun hq => play_queue_effects_direct env device_id tq t rest v hsearch hread hq⟩

/-- A concrete environment for the C5 witness: one matching track,
settings file present with `default_play_behavior = "queue"`. -/
def envQueueSetting : SpotifyEnv where
  devicesResult := .ok [⟨"d1", "Desk", "Computer", true⟩]
  userInputs := []
  transferResult := .ok ()
  searchResult := .ok [⟨"spotify:track:faded1", "Faded", "Alan Walker"⟩]
  settingsFile := .valid (Json.obj [("default_play_behavior", Json.str "queue")])
  currentPlayback := .ok (some true)
  addToQueueResult := .ok ()
  startPlaybackUrisResult := .ok ()
  startPlaybackResumeResult := .ok ()
  nextTrackResult := .ok ()
  previousTrackResult := .ok ()
  pausePlaybackResult := .ok ()
  authFlowOk := true

/-- Witness for C5 at a concrete play command with setting `queue`. -/
theorem claim_C5_play_behavior_witness :
    Effect.call (.add_to_queue "spotify:track:faded1" "d1") ∈
        helperEffects (_handle_spotify_play_queue envQueueSetting "d1"
          (Json.str SPOTIFY_ACTION_PLAY) (Json.str "faded")) ∧
    Effect.print "Setting: Play command interpreted as Add to Queue." ∈
        helperEffects (_handle_spotify_play_queue envQueueSetting "d1"
          (Json.str SPOTIFY_ACTION_PLAY) (Json.str "faded")) ∧
    ∀ d us, Effect.call (.start_playback_uris d us) ∉
        helperEffects (_handle_spotify_play_queue envQueueSetting "d1"
          (Json.str SPOTIFY_ACTION_PLAY) (Json.str "faded")) :=
  (claim_C5_play_behavior envQueueSetting "d1" (Json.str "faded")
      ⟨"spotify:track:faded1", "Faded", "Alan Walker"⟩ [] (some (Json.str "queue"))
      rfl rfl).1 rfl

/-- C10: when the settings file does not exist, `load_settings` returns
`{"default_play_behavior": "queue"}`; consequently a matched media `play`
command executed with no settings file is downgraded to queue —
`add_to_queue` is invoked and `start_playback` with the track is not. -/
theorem claim_C10_absent_settings_default (env : SpotifyEnv) (device_id : String)
    (tq : Json) (t : Track) (rest : List Track)
    (hsf : env.settingsFile = .absent)
    (hsearch : env.searchResult = .ok (t :: rest)) :
    load_settings .absent = .ok (Json.obj [("default_play_behavior", Json.str "queue")]) ∧
    Effect.call (.add_to_queue t.uri device_id) ∈
        helperEffects (_handle_spotify_play_queue env device_id
          (Json.str SPOTIFY_ACTION_PLAY) tq) ∧
    ∀ d us, Effect.call (.start_playback_uris d us) ∉
        helperEffects (_handle_spotify_play_queue env device_id
          (Json.str SPOTIFY_ACTION_PLAY) tq) := by
  have hread : settings_read env.settingsFile = some (some (Json.str "queue")) := by
    rw [hsf]; rfl
  have h := play_queue_effects_downgraded env device_id tq t rest
    (some (Json.str "queue")) hsearch hread rfl
  exact ⟨rfl, h.1, h.2.2⟩

/-- A concrete environment for the C10 witness: no settings file. -/
def envNoSettings : SpotifyEnv where
  devicesResult := .ok [⟨"d1", "Desk", "Computer", true⟩]
  userInputs := []
  transferResult := .ok ()
  searchResult := .ok [⟨"spotify:track:t1", "Song", "Artist"⟩]
  settingsFile := .absent
  currentPlayback := .ok (some true)
  addToQueueResult := .ok ()
  startPlaybackUrisResult := .ok ()
  startPlaybackResumeResult := .ok ()
  nextTrackResult := .ok ()
  previousTrackResult := .ok ()
  pausePlaybackResult := .ok ()
  authFlowOk := true

/-- Witness for C10 at a concrete play command with no settings file. -/
theorem claim_C10_absent_settings_default_witness :
    load_settings .absent = .ok (Json.obj [("default_play_behavior", Json.str "queue")]) ∧
    Effect.call (.add_to_queue "spotify:track:t1" "d1") ∈
        helperEffects (_handle_spotify_play_queue envNoSettings "d1"
          (Json.str SPOTIFY_ACTION_PLAY) (Json.str "song")) ∧
    ∀ d us, Effect.call (.start_playback_uris d us) ∉
        helperEffects (_handle_spotify_play_queue envNoSettings "d1"
          (Json.str SPOTIFY_ACTION_PLAY) (Json.str "song")) :=
  claim_C10_absent_settings_default envNoSettings "d1" (Json.str "song")
    ⟨"spotify:track:t1", "Song", "Artist"⟩ [] rfl rfl

/-! ## Claim C7 — manual device selection -/

/-- A concrete environment for C7: one device, not active, and the user
answers `1` at the selection prompt. -/
def envInactiveDevice : SpotifyEnv where
  devicesResult := .ok [⟨"d1", "Living Room", "Speaker", false⟩]
  userInputs := ["1"]
  transferResult := .ok ()
  searchResult := .ok []
  settingsFile := .absent
  currentPlayback := .ok none
  addToQueueResult := .ok ()
  startPlaybackUrisResult := .ok ()
  startPlaybackResumeResult := .ok ()
  nextTrackResult := .ok ()
  previousTrackResult := .ok ()
  pausePlaybackResult := .ok ()
  authFlowOk := true

/-- C7: the claim (and the own source comment at src/spot.py line 133,
which reads: Transfer playback to the selected device, but do not start
playing yet)
says the handler transfers control to the chosen device *without
starting playback*.  The code, however, calls
`sp_client.transfer_playback(device_id=..., force_play=True)` — and with
`force_play=True` the transfer makes the service start playback on the
new device.  This theorem evaluates the embedded code at the failing
input: one inactive device, user selects index 1; the transfer call is
issued with `force_play = true`, then the id of the device is returned. -/
theorem claim_C7_transfer_force_play :
    get_active_device_id envInactiveDevice ⟨true, true⟩ =
      .returned (some "d1") ⟨true, true⟩
        [Effect.call .devices,
         Effect.print "No active Spotify device found. Available devices:",
         Effect.print "Living Room (Speaker)",
         Effect.call (.transfer_playback "d1" true)] := rfl

/-! ## Claim C6 — token invalidation on authorization expiry -/

/-- The global state a handler invocation ends in. -/
def outcomeState : HandlerOutcome → GState
  | .done st _ => st
  | .pyError _ st _ => st
  | .blockedInput st _ => st

/-- The effects a handler invocation performed. -/
def outcomeEffects : HandlerOutcome → List Effect
  | .done _ effs => effs
  | .pyError _ _ effs => effs
  | .blockedInput _ effs => effs

/-- Whether a handler invocation returned normally. -/
def outcomeDone : HandlerOutcome → Bool
  | .done _ _ => true
  | .pyError _ _ _ => false
  | .blockedInput _ _ => false

/-- C6: when the catalog-search call of a play/queue command (resolved
to a device with a truthy, nonempty id — a falsy id stops the handler
at `if not device_id:` before any service call) raises a
`SpotifyException` whose message matches the token-expiry test, the
handler returns normally (reporting the failure with a status line),
removes the token cache file, clears the cached client — so the next
`get_spotify_client` call drives the interactive authorization flow —
and performs no playback action (no add-to-queue and no
start-playback call appears among the effects). -/
theorem claim_C6_token_invalidation (env env2 : SpotifyEnv) (st : GState)
    (fields dfields : List (String × Json)) (msg : String)
    (actionJ tq : Json) (d : Device) (ds : List Device)
    (hcmd : pyLookup fields "spotify_command" = some (Json.obj dfields))
    (hdid : d.id ≠ "")
    (haction : pyLookup dfields "action" = some actionJ)
    (hact : actionJ = Json.str SPOTIFY_ACTION_PLAY ∨ actionJ = Json.str SPOTIFY_ACTION_QUEUE)
    (htrack : pyLookup dfields "track_query" = some tq)
    (htq : truthy tq = true)
    (hsp : st.sp_some = true)
    (hcache : st.cache_exists = true)
    (hdev : env.devicesResult = .ok (d :: ds))
    (hdactive : d.is_active = true)
    (hsearch : env.searchResult = .spotifyErr msg)
    (htok : is_token_error msg = true)
    (hnad : strContains msg "No active device found" = false) :
    outcomeDone (handle_spotify_command (Json.obj fields) env st) = true ∧
    outcomeState (handle_spotify_command (Json.obj fields) env st) = ⟨false, false⟩ ∧
    Effect.removeFile SPOTIPY_CACHE_PATH ∈
        outcomeEffects (handle_spotify_command (Json.obj fields) env st) ∧
    Effect.clearGlobalSp ∈
        outcomeEffects (handle_spotify_command (Json.obj fields) env st) ∧
    Effect.print "Spotify Error: Access token expired. Attempting to re-authenticate on next command." ∈
        outcomeEffects (handle_spotify_command (Json.obj fields) env st) ∧
    (∀ u dev, Effect.call (.add_to_queue u dev) ∉
        outcomeEffects (handle_spotify_command (Json.obj fields) env st)) ∧
    (∀ dev us, Effect.call (.start_playback_uris dev us) ∉
        outcomeEffects (handle_spotify_command (Json.obj fields) env st)) ∧
    (∀ dev, Effect.call (.start_playback_resume dev) ∉
        outcomeEffects (handle_spotify_command (Json.obj fields) env st)) ∧
    Effect.print "Spotify Auth: please open this URL in your browser to log in" ∈
        (get_spotify_client_run env2 ⟨false, false⟩).effects := by
  have hdf : truthy (Json.obj dfields) = true := by
    cases dfields with
    | nil => simp [pyLookup] at haction
    | cons a l => rfl
  have hta : truthy actionJ = true := by
    rcases hact with h | h <;> subst h <;> rfl
  have hdisp : (jsonEqStr SPOTIFY_ACTION_PLAY actionJ ||
      jsonEqStr SPOTIFY_ACTION_QUEUE actionJ) = true := by
    rcases hact with h | h <;> subst h <;> rfl
  have hcl : get_spotify_client_run env st = ⟨true, st, []⟩ := by
    simp [get_spotify_client_run, hsp]
  have hdv : get_active_device_id env st =
      .returned (some d.id) st [Effect.call .devices] := by
    simp [get_active_device_id, hdev, List.filter_cons, hdactive]
  have hh : _handle_spotify_play_queue env d.id actionJ tq =
      .raised (.spotify msg) [Effect.call (.search tq)] := by
    simp [_handle_spotify_play_queue, hsearch]
  have hdid2 : (d.id == "") = false := by simp [hdid]
  have hmain : handle_spotify_command (Json.obj fields) env st =
      .done ⟨false, false⟩
        ([Effect.print "SPOTIFY"] ++ [] ++ [Effect.call .devices] ++
          [Effect.call (.search tq)] ++
          [Effect.print "Spotify Error: Access token expired. Attempting to re-authenticate on next command."] ++
          [Effect.removeFile SPOTIPY_CACHE_PATH] ++ [Effect.clearGlobalSp]) := by
    simp only [handle_spotify_command, hcmd, hdf, haction, htrack, hta, hcl, hdv, hh,
      hdid2, hdisp, htq, truthyOpt, Bool.not_true, Bool.false_eq_true, if_false, ite_false,
      Bool.true_eq_false, if_true, ite_true]
    simp [run_helper_result, hh, hnad, htok, hcache]
  refine ⟨?_, ?_, ?_, ?_, ?_, ?_, ?_, ?_, ?_⟩
  · rw [hmain]; rfl
  · rw [hmain]; rfl
  · rw [hmain]; simp [outcomeEffects]
  · rw [hmain]; simp [outcomeEffects]
  · rw [hmain]; simp [outcomeEffects]
  · rw [hmain]; simp [outcomeEffects]
  · rw [hmain]; simp [outcomeEffects]
  · rw [hmain]; simp [outcomeEffects]
  · cases hfa : env2.authFlowOk <;> simp [get_spotify_client_run, hfa]

/-- A concrete environment for the C6 witness: an active device and a
search call that raises with the token-expired message. -/
def envTokenExpired : SpotifyEnv where
  devicesResult := .ok [⟨"d1", "Desk", "Computer", true⟩]
  userInputs := []
  transferResult := .ok ()
  searchResult := .spotifyErr "The access token expired"
  settingsFile := .absent
  currentPlayback := .ok none
  addToQueueResult := .ok ()
  startPlaybackUrisResult := .ok ()
  startPlaybackResumeResult := .ok ()
  nextTrackResult := .ok ()
  previousTrackResult := .ok ()
  pausePlaybackResult := .ok ()
  authFlowOk := false

/-- The concrete media command for the C6 witness. -/
def cmdPlayFaded : List (String × Json) :=
  [("spotify_command",
    Json.obj [("action", Json.str "play"), ("track_query", Json.str "faded")])]

/-- Witness for C6 at a concrete play command whose search raises the
token-expired error. -/
theorem claim_C6_token_invalidation_witness :
    outcomeDone (handle_spotify_command (Json.obj cmdPlayFaded) envTokenExpired ⟨true, true⟩) = true ∧
    outcomeState (handle_spotify_command (Json.obj cmdPlayFaded) envTokenExpired ⟨true, true⟩) = ⟨false, false⟩ ∧
    Effect.removeFile SPOTIPY_CACHE_PATH ∈
        outcomeEffects (handle_spotify_command (Json.obj cmdPlayFaded) envTokenExpired ⟨true, true⟩) ∧
    Effect.clearGlobalSp ∈
        outcomeEffects (handle_spotify_command (Json.obj cmdPlayFaded) envTokenExpired ⟨true, true⟩) ∧
    Effect.print "Spotify Error: Access token expired. Attempting to re-authenticate on next command." ∈
        outcomeEffects (handle_spotify_command (Json.obj cmdPlayFaded) envTokenExpired ⟨true, true⟩) ∧
    (∀ u dev, Effect.call (.add_to_queue u dev) ∉
        outcomeEffects (handle_spotify_command (Json.obj cmdPlayFaded) envTokenExpired ⟨true, true⟩)) ∧
    (∀ dev us, Effect.call (.start_playback_uris dev us) ∉
        outcomeEffects (handle_spotify_command (Json.obj cmdPlayFaded) envTokenExpired ⟨true, true⟩)) ∧
    (∀ dev, Effect.call (.start_playback_resume dev) ∉
        outcomeEffects (handle_spotify_command (Json.obj cmdPlayFaded) envTokenExpired ⟨true, true⟩)) ∧
    Effect.print "Spotify Auth: please open this URL in your browser to log in" ∈
        (get_spotify_client_run envTokenExpired ⟨false, false⟩).effects :=
  claim_C6_token_invalidation envTokenExpired envTokenExpired ⟨true, true⟩
    cmdPlayFaded [("action", Json.str "play"), ("track_query", Json.str "faded")]
    "The access token expired" (Json.str "play") (Json.str "faded")
    ⟨"d1", "Desk", "Computer", true⟩ []
    rfl (by decide) rfl (Or.inl rfl) rfl (by decide) rfl rfl rfl rfl rfl (by decide) (by decide)

end Vega
